import Mathlib

/-!
A shallow embedding of `src/vpn_benchmark.py` (a macOS network-quality
logging script) together with proofs about it.

Modelling conventions:
* Python strings are Lean `String` / `List Char`; the regex searches of
  `parse_network_quality` are embedded as specialized matchers that follow
  the semantics of `re.search` (leftmost match, greedy `+`, lazy `.*?`
  that does not cross a newline, `re.IGNORECASE`) for the six concrete
  patterns appearing in the source.  `\d` and `\s` are modelled over
  ASCII, and case folding is ASCII case folding.
* Python `float` values are modelled as `ℚ`; `None` as `Option.none`.
* A Python exception escaping a function is `Except.error ()`.
* External effects (the `networkQuality` subprocess, the HTTPS IP lookup,
  the CSV file) are modelled by passing their outcomes/state explicitly.
-/

namespace VpnBenchmark

/-- ASCII `\s` as used by Python's `re` on ASCII text: space, tab,
newline, carriage return, vertical tab, form feed. -/
def isSpaceCh (c : Char) : Bool :=
  c = ' ' || c = '\t' || c = '\n' || c = '\r' || c = '\x0b' || c = '\x0c'

/-- ASCII `\d`. -/
def isDigitCh (c : Char) : Bool :=
  '0' ≤ c && c ≤ '9'

/-- The character class `[\d.]` of the capacity/latency captures. -/
def isDigDot (c : Char) : Bool :=
  isDigitCh c || c = '.'

/-- ASCII lower-casing, as done by `re.IGNORECASE` / `str.lower`. -/
def lowerCh (c : Char) : Char :=
  if 'A' ≤ c && c ≤ 'Z' then Char.ofNat (c.toNat + 32) else c

/-- ASCII upper-casing, used by `str.title` on the first letter. -/
def upperCh (c : Char) : Char :=
  if 'a' ≤ c && c ≤ 'z' then Char.ofNat (c.toNat - 32) else c

/-- Match a literal pattern (given in lower case) case-insensitively at the
head of the input; return the rest of the input on success. -/
def matchCI : List Char → List Char → Option (List Char)
  | [], s => some s
  | _ :: _, [] => none
  | p :: ps, c :: cs => if lowerCh c = p then matchCI ps cs else none

/-- `\s+` followed by maximal whitespace skipping.  (In each source
pattern the token after `\s+`/`\s*` is a non-whitespace literal, so the
greedy maximal-munch reading agrees with the backtracking engine.) -/
def skipWs1 : List Char → Option (List Char)
  | [] => none
  | c :: cs => if isSpaceCh c then some (cs.dropWhile isSpaceCh) else none

/-- `re.search` over a fixed single-position matcher: try every start
position from the left, first success wins (leftmost match). -/
def reSearch (m : List Char → Option (List Char)) : List Char → Option (List Char)
  | [] => m []
  | c :: cs =>
    match m (c :: cs) with
    | some r => some r
    | none => reSearch m cs

/-- Lazy `.*?` followed by the tail matcher `m`: try the shortest
extension first; `.` does not match a newline. -/
def lazyScan (m : List Char → Option (List Char)) : List Char → Option (List Char)
  | [] => m []
  | c :: cs =>
    match m (c :: cs) with
    | some r => some r
    | none => if c = '\n' then none else lazyScan m cs

/-- `(Downlink|Uplink)\s+capacity:\s*([\d.]+)` at one position; `word` is
the leading literal.  Returns the captured group. -/
def capacityAt (word : List Char) (s : List Char) : Option (List Char) :=
  match matchCI word s with
  | none => none
  | some s1 =>
    match skipWs1 s1 with
    | none => none
    | some s2 =>
      match matchCI "capacity:".data s2 with
      | none => none
      | some s3 =>
        let s4 := s3.dropWhile isSpaceCh
        let cap := s4.takeWhile isDigDot
        if cap.isEmpty then none else some cap

def downlinkAt : List Char → Option (List Char) :=
  capacityAt "downlink".data

def uplinkAt : List Char → Option (List Char) :=
  capacityAt "uplink".data

/-- `Idle\s+Latency:\s*([\d.]+)\s*(?:ms|milliseconds)` at one position. -/
def latencyAt (s : List Char) : Option (List Char) :=
  match matchCI "idle".data s with
  | none => none
  | some s1 =>
    match skipWs1 s1 with
    | none => none
    | some s2 =>
      match matchCI "latency:".data s2 with
      | none => none
      | some s3 =>
        let s4 := s3.dropWhile isSpaceCh
        let cap := s4.takeWhile isDigDot
        if cap.isEmpty then none
        else
          let s5 := (s4.dropWhile isDigDot).dropWhile isSpaceCh
          match matchCI "ms".data s5 with
          | some _ => some cap
          | none =>
            match matchCI "milliseconds".data s5 with
            | some _ => some cap
            | none => none

/-- The tail `\|\s*(\d+)\s*RPM` of the idle-RPM pattern. -/
def idleRpmTail (s : List Char) : Option (List Char) :=
  match s with
  | '|' :: s1 =>
    let s2 := s1.dropWhile isSpaceCh
    let cap := s2.takeWhile isDigitCh
    if cap.isEmpty then none
    else
      let s3 := (s2.dropWhile isDigitCh).dropWhile isSpaceCh
      match matchCI "rpm".data s3 with
      | some _ => some cap
      | none => none
  | _ => none

/-- `Idle\s+Latency:.*?\|\s*(\d+)\s*RPM` at one position. -/
def idleRpmAt (s : List Char) : Option (List Char) :=
  match matchCI "idle".data s with
  | none => none
  | some s1 =>
    match skipWs1 s1 with
    | none => none
    | some s2 =>
      match matchCI "latency:".data s2 with
      | none => none
      | some s3 => lazyScan idleRpmTail s3

/-- The alternation `(High|Medium|Low)` tried left to right; the capture
is the matched text itself (original case), as `m.group(1)` returns it. -/
def labelAlt (s2 : List Char) : Option (List Char) :=
  match matchCI "high".data s2 with
  | some _ => some (s2.take 4)
  | none =>
    match matchCI "medium".data s2 with
    | some _ => some (s2.take 6)
    | none =>
      match matchCI "low".data s2 with
      | some _ => some (s2.take 3)
      | none => none

/-- `Responsiveness:\s*(High|Medium|Low)` at one position. -/
def respLabelAt (s : List Char) : Option (List Char) :=
  match matchCI "responsiveness:".data s with
  | none => none
  | some s1 => labelAlt (s1.dropWhile isSpaceCh)

/-- The tail `(\d+)\s*RPM` of the responsiveness-RPM pattern. -/
def respRpmTail (s : List Char) : Option (List Char) :=
  let cap := s.takeWhile isDigitCh
  if cap.isEmpty then none
  else
    let s2 := (s.dropWhile isDigitCh).dropWhile isSpaceCh
    match matchCI "rpm".data s2 with
    | some _ => some cap
    | none => none

/-- `Responsiveness:.*?(\d+)\s*RPM` at one position. -/
def respRpmAt (s : List Char) : Option (List Char) :=
  match matchCI "responsiveness:".data s with
  | none => none
  | some s1 => lazyScan respRpmTail s1

def searchDownlink : List Char → Option (List Char) :=
  reSearch downlinkAt

def searchUplink : List Char → Option (List Char) :=
  reSearch uplinkAt

def searchLatency : List Char → Option (List Char) :=
  reSearch latencyAt

def searchIdleRpm : List Char → Option (List Char) :=
  reSearch idleRpmAt

def searchRespLabel : List Char → Option (List Char) :=
  reSearch respLabelAt

def searchRespRpm : List Char → Option (List Char) :=
  reSearch respRpmAt

/-- `int(...)` on a nonempty digit string. -/
def digitsVal (cs : List Char) : ℕ :=
  cs.foldl (fun a c => 10 * a + (c.toNat - 48)) 0

/-- Python `float(...)` on a string drawn from `[\d.]+`: at most one dot
and at least one digit; `float(".")`, `float("1.2.3")` raise (`none`). -/
def parsePyFloat (cs : List Char) : Option ℚ :=
  let intPart := cs.takeWhile isDigitCh
  let rest := cs.dropWhile isDigitCh
  match rest with
  | [] => if intPart.isEmpty then none else some (digitsVal intPart)
  | '.' :: frac =>
    if frac.all isDigitCh then
      if intPart.isEmpty && frac.isEmpty then none
      else some ((digitsVal intPart : ℚ) + (digitsVal frac : ℚ) / ((10 : ℚ) ^ frac.length))
    else none
  | _ => none

/-- `str.title()` on a single word, as applied to the matched label. -/
def titleWord (cs : List Char) : String :=
  match cs with
  | [] => ""
  | c :: rest => String.mk (upperCh c :: rest.map lowerCh)

/-- `grab_float`: absent pattern is `none` (no exception); a matched but
non-convertible capture raises, i.e. `Except.error ()`. -/
def grabFloat (o : Option (List Char)) : Except Unit (Option ℚ) :=
  match o with
  | none => Except.ok none
  | some cap =>
    match parsePyFloat cap with
    | some v => Except.ok (some v)
    | none => Except.error ()

/-- The record returned by `parse_network_quality`. -/
structure NQMetrics where
  down : Option ℚ
  up : Option ℚ
  latency_ms : Option ℚ
  resp_label : String
  resp_rpm : Option ℕ
  idle_rpm : Option ℕ
  deriving Repr, DecidableEq

deriving instance DecidableEq for Except

/-- `parse_network_quality`.  The three float fields are grabbed first
(in source order) and any of them may raise; the int/label grabs cannot
raise.  The first raised exception escapes, as in Python. -/
def parse_network_quality (text : String) : Except Unit NQMetrics :=
  match grabFloat (searchDownlink text.data), grabFloat (searchUplink text.data),
        grabFloat (searchLatency text.data) with
  | Except.ok down, Except.ok up, Except.ok latency =>
    Except.ok
      { down := down
        up := up
        latency_ms := latency
        resp_label := ((searchRespLabel text.data).map titleWord).getD "Unknown"
        resp_rpm := (searchRespRpm text.data).map digitsVal
        idle_rpm := (searchIdleRpm text.data).map digitsVal }
  | Except.error e, _, _ => Except.error e
  | _, Except.error e, _ => Except.error e
  | _, _, Except.error e => Except.error e

/-- Outcome of `subprocess.check_output(cmd, stderr=STDOUT, text=True)`:
exit status together with the captured combined stdout+stderr text. -/
structure CmdResult where
  exitCode : ℕ
  output : String
  deriving Repr, DecidableEq

/-- `subprocess.check_output`: returns the output on exit code 0, raises
`CalledProcessError` (carrying the captured output) otherwise. -/
def check_output (res : CmdResult) : Except CmdResult String :=
  if res.exitCode = 0 then Except.ok res.output else Except.error res

/-- `run`: the `CalledProcessError` is caught and its `.output` returned,
so the captured text is produced regardless of the exit status. -/
def run (res : CmdResult) : String :=
  match check_output res with
  | Except.ok out => out
  | Except.error e => e.output

/-- Python `str.strip()` (whitespace on both ends, ASCII model). -/
def pyStrip (s : String) : String :=
  String.mk (((s.data.dropWhile isSpaceCh).reverse.dropWhile isSpaceCh).reverse)

/-- Outcome of `urllib.request.urlopen("https://api.ipify.org", timeout)`:
either the response body or any exception (timeout included). -/
inductive IpFetch where
  | ok (body : String)
  | err
  deriving Repr, DecidableEq

/-- `get_external_ip`: the lookup is issued with its default 3-second
timeout; any exception yields the sentinel `"N/A"`, a successful body is
stripped of surrounding whitespace. -/
def get_external_ip (fetch : ℕ → IpFetch) : String :=
  match fetch 3 with
  | IpFetch.ok body => pyStrip body
  | IpFetch.err => "N/A"

/-- `str.lower()` (ASCII model), used by `emoji_for_resp`. -/
def pyLower (s : String) : String :=
  String.mk (s.data.map lowerCh)

def emoji_for_down (x : Option ℚ) : String :=
  match x with
  | none => "🔴"
  | some v => if v > 300 then "🟢" else if v ≥ 100 then "🟡" else "🔴"

def emoji_for_up (x : Option ℚ) : String :=
  match x with
  | none => "🔴"
  | some v => if v > 20 then "🟢" else if v ≥ 5 then "🟡" else "🔴"

def emoji_for_latency (ms : Option ℚ) : String :=
  match ms with
  | none => "🔴"
  | some v => if v < 50 then "🟢" else if v ≤ 150 then "🟡" else "🔴"

def emoji_for_resp (label : String) : String :=
  if pyLower label = "high" then "🟢"
  else if pyLower label = "medium" then "🟡"
  else "🔴"

/-- Left-pad the fractional part to three digits. -/
def zeroPad3 (k : ℕ) : String :=
  if k < 10 then "00" ++ toString k
  else if k < 100 then "0" ++ toString k
  else toString k

/-- Fixed-point rendering with three decimals, the `ℚ` idealization of
`f"{x:.3f}"` on a nonnegative float. -/
def formatFixed3 (x : ℚ) : String :=
  let n : ℤ := round (x * 1000)
  toString (n / 1000) ++ "." ++ zeroPad3 (n % 1000).natAbs

/-- `fmt` from `main`: a float is rendered with three decimals, anything
else (i.e. `None`) becomes the literal string `"0.000"`. -/
def fmt (x : Option ℚ) : String :=
  match x with
  | some v => formatFixed3 v
  | none => "0.000"

/-- An optional RPM count as placed in the CSV row: the number, or the
empty string when absent (`x if x is not None else ""`). -/
def rpmCell (x : Option ℕ) : String :=
  match x with
  | some n => toString n
  | none => ""

/-- The metrics summary line printed by `main`. -/
def consoleLine (m : NQMetrics) : String :=
  "📊 Down: " ++ fmt m.down ++ " Mbps " ++ emoji_for_down m.down ++
  " | Up: " ++ fmt m.up ++ " Mbps " ++ emoji_for_up m.up ++
  " | Latency: " ++ fmt m.latency_ms ++ " ms " ++ emoji_for_latency m.latency_ms ++
  " | Resp: " ++ m.resp_label ++ " " ++ emoji_for_resp m.resp_label

/-- The CSV header written on first creation of `vpn_performance.csv`. -/
def header : List String :=
  ["Timestamp", "Profile", "IP",
   "Downlink (Mbps)", "Uplink (Mbps)", "Latency (ms)",
   "Responsiveness", "Responsiveness RPM", "Idle RPM"]

/-- The CSV row logged by one run. -/
def csvRow (timestamp profile ip : String) (m : NQMetrics) : List String :=
  [timestamp, profile, ip,
   fmt m.down, fmt m.up, fmt m.latency_ms,
   m.resp_label, rpmCell m.resp_rpm, rpmCell m.idle_rpm]

/-- The CSV logging step of `main`: the file is `none` when absent
(`open(path, "r")` raises `FileNotFoundError`, setting `write_header`),
then one row is appended to the file opened in mode `"a"`, preceded by
the header exactly when the file did not exist. -/
def logRow (file : Option (List (List String))) (row : List String) :
    List (List String) :=
  match file with
  | none => [header, row]
  | some rows => rows ++ [row]

/-- Iterated runs of the tool against the same log file, each appending
the row it produced. -/
def runAll (file : Option (List (List String))) :
    List (List String) → Option (List (List String))
  | [] => file
  | r :: rs => runAll (some (logRow file r)) rs

/-! ### Helper lemmas -/

theorem grabFloat_none : grabFloat none = Except.ok none := rfl

theorem grabFloat_error_ne_none {o : Option (List Char)} {e : Unit}
    (h : grabFloat o = Except.error e) : o ≠ none := by
  intro hn
  rw [hn] at h
  exact absurd h (by simp [grabFloat])

theorem reSearch_eq_some {m : List Char → Option (List Char)} {cs r : List Char}
    (h : reSearch m cs = some r) : ∃ s, m s = some r := by
  induction cs with
  | nil => exact ⟨[], h⟩
  | cons c cs ih =>
    rw [reSearch] at h
    cases hm : m (c :: cs) with
    | some r2 => rw [hm] at h; exact ⟨c :: cs, hm.trans h⟩
    | none => rw [hm] at h; exact ih h

theorem labelAlt_length {s2 cap : List Char} (h : labelAlt s2 = some cap) :
    cap.length ≤ 6 := by
  unfold labelAlt at h
  split at h
  · injection h with h'
    subst h'
    rw [List.length_take]
    omega
  · split at h
    · injection h with h'
      subst h'
      rw [List.length_take]
      omega
    · split at h
      · injection h with h'
        subst h'
        rw [List.length_take]
        omega
      · exact absurd h (by simp)

theorem respLabelAt_length {s cap : List Char} (h : respLabelAt s = some cap) :
    cap.length ≤ 6 := by
  unfold respLabelAt at h
  split at h
  · exact absurd h (by simp)
  · exact labelAlt_length h

theorem titleWord_length (cs : List Char) : (titleWord cs).length = cs.length := by
  cases cs with
  | nil => rfl
  | cons c rest => simp [titleWord, String.length]

theorem titleWord_ne_unknown {cap : List Char} (hlen : cap.length ≤ 6) :
    titleWord cap ≠ "Unknown" := by
  intro he
  have h1 : (titleWord cap).length = cap.length := titleWord_length cap
  rw [he] at h1
  have h2 : "Unknown".length = 7 := rfl
  omega

theorem searchRespLabel_ne_unknown {cs cap : List Char}
    (h : searchRespLabel cs = some cap) : titleWord cap ≠ "Unknown" := by
  obtain ⟨s, hs⟩ := reSearch_eq_some h
  exact titleWord_ne_unknown (respLabelAt_length hs)

theorem parse_ok_fields {text : String} {r : NQMetrics}
    (h : parse_network_quality text = Except.ok r) :
    grabFloat (searchDownlink text.data) = Except.ok r.down ∧
    grabFloat (searchUplink text.data) = Except.ok r.up ∧
    grabFloat (searchLatency text.data) = Except.ok r.latency_ms ∧
    r.resp_label = ((searchRespLabel text.data).map titleWord).getD "Unknown" ∧
    r.resp_rpm = (searchRespRpm text.data).map digitsVal ∧
    r.idle_rpm = (searchIdleRpm text.data).map digitsVal := by
  unfold parse_network_quality at h
  cases hd : grabFloat (searchDownlink text.data) with
  | error e => rw [hd] at h; simp at h
  | ok d =>
    cases hu : grabFloat (searchUplink text.data) with
    | error e => rw [hd, hu] at h; simp at h
    | ok u =>
      cases hl : grabFloat (searchLatency text.data) with
      | error e => rw [hd, hu, hl] at h; simp at h
      | ok l =>
        rw [hd, hu, hl] at h
        simp only [Except.ok.injEq] at h
        subst h
        exact ⟨rfl, rfl, rfl, rfl, rfl, rfl⟩

theorem parse_ok_missing {text : String} {r : NQMetrics}
    (h : parse_network_quality text = Except.ok r) :
    (searchDownlink text.data = none → r.down = none) ∧
    (searchUplink text.data = none → r.up = none) ∧
    (searchLatency text.data = none → r.latency_ms = none) ∧
    r.resp_rpm = (searchRespRpm text.data).map digitsVal ∧
    r.idle_rpm = (searchIdleRpm text.data).map digitsVal ∧
    (r.resp_label = "Unknown" ↔ searchRespLabel text.data = none) := by
  obtain ⟨hd, hu, hl, hlab, hrpm, hirpm⟩ := parse_ok_fields h
  refine ⟨?_, ?_, ?_, hrpm, hirpm, ?_⟩
  · intro hn
    rw [hn, grabFloat_none] at hd
    injection hd with h'
    exact h'.symm
  · intro hn
    rw [hn, grabFloat_none] at hu
    injection hu with h'
    exact h'.symm
  · intro hn
    rw [hn, grabFloat_none] at hl
    injection hl with h'
    exact h'.symm
  · rw [hlab]
    cases hL : searchRespLabel text.data with
    | none => simp
    | some cap => simp [searchRespLabel_ne_unknown hL]

theorem parse_error_matched {text : String}
    (h : parse_network_quality text = Except.error ()) :
    searchDownlink text.data ≠ none ∨ searchUplink text.data ≠ none ∨
      searchLatency text.data ≠ none := by
  unfold parse_network_quality at h
  cases hd : grabFloat (searchDownlink text.data) with
  | error e => exact Or.inl (grabFloat_error_ne_none hd)
  | ok d =>
    cases hu : grabFloat (searchUplink text.data) with
    | error e => exact Or.inr (Or.inl (grabFloat_error_ne_none hu))
    | ok u =>
      cases hl : grabFloat (searchLatency text.data) with
      | error e => exact Or.inr (Or.inr (grabFloat_error_ne_none hl))
      | ok l => rw [hd, hu, hl] at h; simp at h

theorem runAll_some : ∀ (rs : List (List String)) (acc : List (List String)),
    runAll (some acc) rs = some (acc ++ rs) := by
  intro rs
  induction rs with
  | nil => intro acc; simp [runAll]
  | cons r rs ih =>
    intro acc
    rw [runAll, logRow, ih]
    simp

/-! ### The claims -/

/-- Claim C1: for every input text, a successful parse leaves each field
whose pattern is absent as `none` (not zero), the RPM fields are exactly
the integers of their matches, the parse can only raise when some float
pattern did match (never because one is missing), and the responsiveness
label is `"Unknown"` exactly when the responsiveness-label pattern is
absent from the text. -/
theorem c1_missing_patterns_absent (text : String) :
    (∀ r : NQMetrics, parse_network_quality text = Except.ok r →
      (searchDownlink text.data = none → r.down = none) ∧
      (searchUplink text.data = none → r.up = none) ∧
      (searchLatency text.data = none → r.latency_ms = none) ∧
      r.resp_rpm = (searchRespRpm text.data).map digitsVal ∧
      r.idle_rpm = (searchIdleRpm text.data).map digitsVal ∧
      (r.resp_label = "Unknown" ↔ searchRespLabel text.data = none)) ∧
    (parse_network_quality text = Except.error () →
      searchDownlink text.data ≠ none ∨ searchUplink text.data ≠ none ∨
        searchLatency text.data ≠ none) :=
  ⟨fun _ h => parse_ok_missing h, parse_error_matched⟩

theorem c1_witness :
    ({ down := none, up := none, latency_ms := none, resp_label := "Low",
       resp_rpm := some 48, idle_rpm := none } : NQMetrics).resp_label ≠ "Unknown" := by
  intro hx
  have h := ((c1_missing_patterns_absent "Responsiveness: Low (48 RPM)").1
      { down := none, up := none, latency_ms := none, resp_label := "Low",
        resp_rpm := some 48, idle_rpm := none } (by decide)).2.2.2.2.2
  exact absurd (h.mp hx) (by decide)

/-- Claim C2: the downlink classifier marks `x > 300` good (green),
`100 ≤ x ≤ 300` caution (yellow), anything below poor (red), and an
absent value poor; in particular 350 is good, 150 caution, 50 poor and
`none` poor. -/
theorem c2_downlink_classifier (x : ℚ) :
    (x > 300 → emoji_for_down (some x) = "🟢") ∧
    (100 ≤ x → x ≤ 300 → emoji_for_down (some x) = "🟡") ∧
    (x < 100 → emoji_for_down (some x) = "🔴") ∧
    emoji_for_down none = "🔴" ∧
    emoji_for_down (some 350) = "🟢" ∧
    emoji_for_down (some 150) = "🟡" ∧
    emoji_for_down (some 50) = "🔴" := by
  refine ⟨fun h => ?_, fun h1 h2 => ?_, fun h => ?_, rfl, ?_, ?_, ?_⟩
  · simp only [emoji_for_down]
    split_ifs with h1 h2 <;> first | rfl | linarith
  · simp only [emoji_for_down]
    split_ifs with h3 h4 <;> first | rfl | linarith
  · simp only [emoji_for_down]
    split_ifs with h3 h4 <;> first | rfl | linarith
  · norm_num [emoji_for_down]
  · norm_num [emoji_for_down]
  · norm_num [emoji_for_down]

theorem c2_witness :
    emoji_for_down (some 350) = "🟢" ∧ emoji_for_down (some 150) = "🟡" ∧
      emoji_for_down (some 50) = "🔴" :=
  ⟨(c2_downlink_classifier 350).1 (by norm_num),
   (c2_downlink_classifier 150).2.1 (by norm_num) (by norm_num),
   (c2_downlink_classifier 50).2.2.1 (by norm_num)⟩

/-- Claim C3: starting from a missing CSV file, a run creates the file
with the header followed by its one data row; every later run appends
exactly its one row, leaves the previous contents unchanged, and never
writes the header again: after runs producing rows `r :: rs`, the file
holds exactly `header :: r :: rs`. -/
theorem c3_append_only (r : List String) (rs : List (List String))
    (rows : List (List String)) (row : List String) :
    logRow none r = [header, r] ∧
    logRow (some rows) row = rows ++ [row] ∧
    runAll none (r :: rs) = some (header :: r :: rs) := by
  refine ⟨rfl, rfl, ?_⟩
  rw [runAll, runAll_some]
  rfl

/-- Claim C4: a non-zero exit of the measurement command does not abort
the run: `run` still returns the captured combined output, and parsing
that output degrades unmatched fields to absent/default values. -/
theorem c4_nonzero_exit_still_parsed (res : CmdResult) (h : res.exitCode ≠ 0) :
    run res = res.output ∧
    ∀ r : NQMetrics, parse_network_quality (run res) = Except.ok r →
      (searchDownlink (run res).data = none → r.down = none) ∧
      (searchUplink (run res).data = none → r.up = none) ∧
      (searchLatency (run res).data = none → r.latency_ms = none) ∧
      (r.resp_label = "Unknown" ↔ searchRespLabel (run res).data = none) := by
  have hrun : run res = res.output := by
    unfold run check_output
    rw [if_neg h]
  refine ⟨hrun, fun r hr => ?_⟩
  obtain ⟨h1, h2, h3, _, _, h6⟩ := parse_ok_missing hr
  exact ⟨h1, h2, h3, h6⟩

theorem c4_witness :
    run { exitCode := 1, output := "networkQuality: error" } = "networkQuality: error" :=
  (c4_nonzero_exit_still_parsed { exitCode := 1, output := "networkQuality: error" }
    (by decide)).1

/-- Claim C5: on `"Responsiveness: Medium (208.467 milliseconds | 287 RPM)"`
the extractor returns label `"Medium"` and responsiveness RPM 287 — not
208 or any digit substring of the milliseconds value. -/
theorem c5_responsiveness_rpm :
    parse_network_quality "Responsiveness: Medium (208.467 milliseconds | 287 RPM)" =
      Except.ok { down := none, up := none, latency_ms := none,
                  resp_label := "Medium", resp_rpm := some 287, idle_rpm := none } := by
  decide

/-- Claim C6: on `"Idle Latency: 35.624 ms"` the extractor returns latency
35.624 and no idle RPM (that field needs a `| <int> RPM` suffix). -/
theorem c6_idle_latency :
    parse_network_quality "Idle Latency: 35.624 ms" =
      Except.ok { down := none, up := none,
                  latency_ms := some ((35624 : ℚ) / 1000),
                  resp_label := "Unknown", resp_rpm := none, idle_rpm := none } := by
  with_unfolding_all rfl

/-- Claim C7: the latency classifier marks `ms < 50` good (green),
`50 ≤ ms ≤ 150` caution (yellow), `ms > 150` poor (red), and an absent
value poor. -/
theorem c7_latency_classifier (ms : ℚ) :
    (ms < 50 → emoji_for_latency (some ms) = "🟢") ∧
    (50 ≤ ms → ms ≤ 150 → emoji_for_latency (some ms) = "🟡") ∧
    (ms > 150 → emoji_for_latency (some ms) = "🔴") ∧
    emoji_for_latency none = "🔴" := by
  refine ⟨fun h => ?_, fun h1 h2 => ?_, fun h => ?_, rfl⟩
  · simp only [emoji_for_latency]
    split_ifs with h1 h2 <;> first | rfl | linarith
  · simp only [emoji_for_latency]
    split_ifs with h3 h4 <;> first | rfl | linarith
  · simp only [emoji_for_latency]
    split_ifs with h3 h4 <;> first | rfl | linarith

theorem c7_witness :
    emoji_for_latency (some 30) = "🟢" ∧ emoji_for_latency (some 50) = "🟡" ∧
      emoji_for_latency (some 200) = "🔴" :=
  ⟨(c7_latency_classifier 30).1 (by norm_num),
   (c7_latency_classifier 50).2.1 (by norm_num) (by norm_num),
   (c7_latency_classifier 200).2.2.1 (by norm_num)⟩

/-- Claim C8: any failure of the external-IP lookup (timeout included)
yields the sentinel `"N/A"` instead of propagating, and a success returns
the response body stripped of surrounding whitespace. -/
theorem c8_ip_sentinel (fetch : ℕ → IpFetch) :
    (fetch 3 = IpFetch.err → get_external_ip fetch = "N/A") ∧
    ∀ body, fetch 3 = IpFetch.ok body → get_external_ip fetch = pyStrip body := by
  constructor
  · intro h
    unfold get_external_ip
    rw [h]
  · intro body h
    unfold get_external_ip
    rw [h]

theorem c8_witness :
    get_external_ip (fun _ => IpFetch.err) = "N/A" ∧
      get_external_ip (fun _ => IpFetch.ok " 203.0.113.7\n") = pyStrip " 203.0.113.7\n" :=
  ⟨(c8_ip_sentinel (fun _ => IpFetch.err)).1 rfl,
   (c8_ip_sentinel (fun _ => IpFetch.ok " 203.0.113.7\n")).2 " 203.0.113.7\n" rfl⟩

/-- Claim C9: in the console line and the CSV row, each absent numeric
metric (downlink, uplink, latency) is rendered as the string `"0.000"`,
while absent responsiveness-RPM and idle-RPM values become empty
strings. -/
theorem c9_absent_rendering (timestamp profile ip : String) (m : NQMetrics)
    (hd : m.down = none) (hu : m.up = none) (hl : m.latency_ms = none)
    (hr : m.resp_rpm = none) (hi : m.idle_rpm = none) :
    csvRow timestamp profile ip m =
      [timestamp, profile, ip, "0.000", "0.000", "0.000", m.resp_label, "", ""] ∧
    consoleLine m =
      "📊 Down: 0.000 Mbps 🔴 | Up: 0.000 Mbps 🔴 | Latency: 0.000 ms 🔴 | Resp: " ++
        m.resp_label ++ " " ++ emoji_for_resp m.resp_label := by
  obtain ⟨d, u, l, lab, rr, ir⟩ := m
  simp only at hd hu hl hr hi
  subst hd
  subst hu
  subst hl
  subst hr
  subst hi
  exact ⟨rfl, rfl⟩

theorem c9_witness :
    csvRow "2026-10-12 00:00:00" "Work" "N/A"
        { down := none, up := none, latency_ms := none, resp_label := "Unknown",
          resp_rpm := none, idle_rpm := none } =
      ["2026-10-12 00:00:00", "Work", "N/A", "0.000", "0.000", "0.000",
       "Unknown", "", ""] :=
  (c9_absent_rendering "2026-10-12 00:00:00" "Work" "N/A"
    { down := none, up := none, latency_ms := none, resp_label := "Unknown",
      resp_rpm := none, idle_rpm := none } rfl rfl rfl rfl rfl).1

/-- Claim C10: the extractor is not total: on
`"Downlink capacity: . Mbps"` the downlink pattern matches the lone dot,
`float(".")` raises, and the whole parse raises. -/
theorem c10_malformed_float_raises :
    parse_network_quality "Downlink capacity: . Mbps" = Except.error () := by
  decide

end VpnBenchmark
